import Mathlib

/-!
Verification development for the pycurious Curie-depth toolkit.

The repository ships only notebook callers of the pycurious library; the
library module itself (CurieGrid / CurieOptimise and the free functions
`ComputeTanaka`, `bouligand2009`, `tanaka1999`, ...) is not among the
source files.  Each definition below is therefore modelled from the
natural-language specification of the toolkit, and its doc comment names
the missing piece of code it stands for.  Numeric values are modelled as
rationals where the operation is pure arithmetic and as real numbers
where logarithms, square roots or integrals occur.
-/

namespace PyCurious

/-- Modelled from the spec: the error kinds of the toolkit (the pycurious
module code is absent from the repository): `OutOfBounds` when a requested
window extends past the Grid extent, `DomainError` for invalid wavenumber
input to a forward model, `FitFailure` for a non-convergent or
under-determined least squares fit. -/
inductive Err where
  | OutOfBounds : Err
  | DomainError : Err
  | FitFailure : Err
deriving DecidableEq, Repr

/-- Modelled from the spec: a Grid is a 2D array of scalar magnetic-anomaly
values with an associated physical extent (xmin, xmax, ymin, ymax) in
metres.  The cell values play no role in the windowing bounds check, so the
data is kept as a list of rows of rationals. -/
structure Grid where
  data : List (List ℚ)
  xmin : ℚ
  xmax : ℚ
  ymin : ℚ
  ymax : ℚ
deriving DecidableEq, Repr

/-- Modelled from the spec: a Window is a square sub-array of a Grid with
its own local extent, created per query. -/
structure Window where
  xlo : ℚ
  xhi : ℚ
  ylo : ℚ
  yhi : ℚ
deriving DecidableEq, Repr

/-- Modelled from the spec: `CurieGrid.subgrid` (the spec name is
`windowed_subgrid`; the library code is absent from the repository).  Given
a window size `w` and centre `(xc, yc)` it returns the sub-array whose
physical bounds are `[xc-w/2, xc+w/2] × [yc-w/2, yc+w/2]`, and fails with
an `OutOfBounds` condition if the requested window extends past the Grid
extent. -/
def subgrid (g : Grid) (w xc yc : ℚ) : Except Err Window :=
  if xc - w / 2 < g.xmin ∨ xc + w / 2 > g.xmax ∨
      yc - w / 2 < g.ymin ∨ yc + w / 2 > g.ymax then
    Except.error Err.OutOfBounds
  else
    Except.ok ⟨xc - w / 2, xc + w / 2, yc - w / 2, yc + w / 2⟩

/-- Modelled from the spec: the free function `ComputeTanaka` (the library
code is absent from the repository).  From the fitted gradient `zt` of the
short-wavelength regime with standard error `dzt` and the fitted gradient
`zo` of the long-wavelength regime with standard error `dzo`, the
Curie-point depth is `Z_b = 2*z_o - z_t` and its propagated uncertainty is
the quadrature combination of the standard errors of the two fits. -/
noncomputable def ComputeTanaka (zt dzt zo dzo : ℝ) : ℝ × ℝ :=
  (2 * zo - zt, Real.sqrt (dzt ^ 2 + dzo ^ 2))

/-- Modelled from the spec: the wavenumber bins of the radial spectrum (the
spectral-estimator code is absent from the repository).  The estimator bins
the 2D FFT frequencies by wavenumber magnitude into radial bins of fixed
width `dk` starting above zero, so bin `j` sits at wavenumber `(j+1)*dk`;
the bin width itself is a numerical policy the spec leaves open, so it is a
parameter here. -/
def spectrumBins (dk : ℚ) (nbins : ℕ) : List ℚ :=
  (List.range nbins).map fun j : ℕ => dk * ((j : ℚ) + 1)

/-- C1: `ComputeTanaka` returns the Curie-point depth `Z_b = 2*z_o - z_t`
with a propagated uncertainty equal to the quadrature combination of the
standard errors of the two fits; in particular at `z_t = 2.0`, `z_o = 5.0`
the returned depth is `8.0`. -/
theorem computeTanaka_zb_spec :
    ∀ zt dzt zo dzo : ℝ,
      (ComputeTanaka zt dzt zo dzo).1 = 2 * zo - zt ∧
      (ComputeTanaka zt dzt zo dzo).2 = Real.sqrt (dzt ^ 2 + dzo ^ 2) ∧
      (ComputeTanaka 2 dzt 5 dzo).1 = 8 := by
  intro zt dzt zo dzo
  refine ⟨rfl, rfl, ?_⟩
  show 2 * (5 : ℝ) - 2 = 8
  norm_num

/-- C2: for every bin width and bin count the wavenumber array of the
radial spectrum is strictly increasing and every entry is positive (hence
nonnegative and starting above zero), provided the bin width is positive. -/
theorem spectrumBins_strictMono_pos :
    ∀ (dk : ℚ) (nbins : ℕ), 0 < dk →
      (spectrumBins dk nbins).Pairwise (· < ·) ∧
      (∀ x ∈ spectrumBins dk nbins, 0 < x) ∧
      (∀ x ∈ spectrumBins dk nbins, 0 ≤ x) := by
  intro dk nbins hdk
  have hpair : (spectrumBins dk nbins).Pairwise (· < ·) := by
    unfold spectrumBins
    refine List.pairwise_map.2 ?_
    refine (List.pairwise_lt_range nbins).imp ?_
    intro a b hab
    have : (a : ℚ) + 1 < (b : ℚ) + 1 := by exact_mod_cast Nat.succ_lt_succ hab
    exact (mul_lt_mul_left hdk).2 this
  have hpos : ∀ x ∈ spectrumBins dk nbins, 0 < x := by
    intro x hx
    rcases List.mem_map.1 hx with ⟨j, _, rfl⟩
    have : (0 : ℚ) < (j : ℚ) + 1 := by exact_mod_cast Nat.succ_pos j
    exact mul_pos hdk this
  exact ⟨hpair, hpos, fun x hx => (hpos x hx).le⟩

/-- Closed witness for C2 at bin width `1` and `3` bins. -/
theorem spectrumBins_strictMono_pos_witness :
    0 < (1 : ℚ) ∧
      ((spectrumBins 1 3).Pairwise (· < ·) ∧
        (∀ x ∈ spectrumBins 1 3, 0 < x) ∧
        (∀ x ∈ spectrumBins 1 3, 0 ≤ x)) :=
  ⟨by norm_num, spectrumBins_strictMono_pos 1 3 (by norm_num)⟩

/-- C3: windowing fails with `OutOfBounds` exactly when the requested
window `[xc-w/2, xc+w/2] × [yc-w/2, yc+w/2]` extends past the physical
extent of the Grid, and a request whose window extent exactly equals the
Grid bounds succeeds. -/
theorem subgrid_outOfBounds_iff :
    ∀ (g : Grid) (w xc yc : ℚ),
      (subgrid g w xc yc = Except.error Err.OutOfBounds ↔
        (xc - w / 2 < g.xmin ∨ xc + w / 2 > g.xmax ∨
          yc - w / 2 < g.ymin ∨ yc + w / 2 > g.ymax)) ∧
      (xc - w / 2 = g.xmin → xc + w / 2 = g.xmax →
        yc - w / 2 = g.ymin → yc + w / 2 = g.ymax →
        subgrid g w xc yc =
          Except.ok ⟨xc - w / 2, xc + w / 2, yc - w / 2, yc + w / 2⟩) := by
  intro g w xc yc
  constructor
  · unfold subgrid
    split
    · next h => simp [h]
    · next h => simp [h]
  · intro h1 h2 h3 h4
    unfold subgrid
    rw [if_neg]
    push_neg
    refine ⟨?_, ?_, ?_, ?_⟩ <;> simp [h1, h2, h3, h4]

/-- Modelled from the spec: the integrand of the 1D numerical integral in
the Bouligand (2009) forward model (the library code is absent from the
repository): over the auxiliary vertical wavenumber `kz`, the integrand is
`(cosh(|k| dz) - cos(kz dz)) * (1 + (kz/|k|)^2)^(-1 - beta/2)`. -/
noncomputable def bouligandIntegrand (k dz beta kz : ℝ) : ℝ :=
  (Real.cosh (|k| * dz) - Real.cos (kz * dz)) *
    (1 + (kz / |k|) ^ 2) ^ (-1 - beta / 2)

/-- Modelled from the spec: the Bouligand (2009) forward model
`bouligand2009` (code absent from the repository): predicted log-power
`C - 2|k| z_t - |k| dz - beta ln|k|` plus the log of the integral of the
integrand over the auxiliary vertical wavenumber, taken up to the
large-but-finite bound `kzMax` as an approximation of the infinite
integral; the truncation bound is a numerical policy the spec leaves open,
so it is a parameter here. -/
noncomputable def bouligand2009 (kzMax k beta zt dz C : ℝ) : ℝ :=
  C - 2 * |k| * zt - |k| * dz - beta * Real.log |k| +
    Real.log (∫ kz in (0 : ℝ)..kzMax, bouligandIntegrand k dz beta kz)

/-- Modelled from the spec: wavenumber validation shared by the three
forward models (code absent from the repository): each model raises a
`DomainError` if its wavenumber input contains nonpositive entries, where
division or log would be undefined; valid input is passed through
unchanged (pure read, no state). -/
noncomputable def checkWavenumbers (ks : List ℝ) : Except Err (List ℝ) :=
  if ∀ k ∈ ks, 0 < k then Except.ok ks else Except.error Err.DomainError

/-- Modelled from the spec: the Tanaka/Li short-wavelength linear model
(`li2013zt`; code absent from the repository): predicted log-amplitude
`ln B - k z_t` at each validated wavenumber. -/
noncomputable def li2013zt (B zt : ℝ) (ks : List ℝ) : Except Err (List ℝ) :=
  (checkWavenumbers ks).map fun l => l.map fun k => Real.log B - k * zt

/-- Modelled from the spec: the Tanaka/Li long-wavelength linear model
(code absent from the repository): predicted rescaled log-amplitude
`ln D - k z_o` at each validated wavenumber. -/
noncomputable def li2013zo (D zo : ℝ) (ks : List ℝ) : Except Err (List ℝ) :=
  (checkWavenumbers ks).map fun l => l.map fun k => Real.log D - k * zo

/-- Modelled from the spec: the validated Bouligand forward model applied
pointwise to a wavenumber array. -/
noncomputable def bouligandModel (kzMax beta zt dz C : ℝ) (ks : List ℝ) :
    Except Err (List ℝ) :=
  (checkWavenumbers ks).map fun l =>
    l.map fun k => bouligand2009 kzMax k beta zt dz C

/-- Validation errors out exactly on a nonpositive wavenumber entry. -/
theorem checkWavenumbers_error_iff (ks : List ℝ) :
    checkWavenumbers ks = Except.error Err.DomainError ↔ ∃ k ∈ ks, k ≤ 0 := by
  unfold checkWavenumbers
  split
  · next h =>
    simp only [reduceCtorEq, false_iff]
    rintro ⟨k, hk, hle⟩
    exact absurd (h k hk) hle.not_lt
  · next h =>
    simp only [true_iff]
    push_neg at h
    rcases h with ⟨k, hk, hle⟩
    exact ⟨k, hk, hle⟩

/-- Validation passes valid input through unchanged. -/
theorem checkWavenumbers_ok (ks l : List ℝ)
    (h : checkWavenumbers ks = Except.ok l) : l = ks := by
  unfold checkWavenumbers at h
  split at h
  · exact (Except.ok.injEq _ _ ▸ h).symm
  · exact absurd h (by simp)

/-- C4: for every `k > 0`, truncation bound and parameters, the Bouligand
forward model returns `C - 2 k z_t - k dz - beta ln k` plus the log of the
integral of `(cosh(k dz) - cos(kz dz)) (1 + (kz/k)^2)^(-1-beta/2)` over
the auxiliary vertical wavenumber up to the large-but-finite bound. -/
theorem bouligand2009_spec :
    ∀ kzMax k beta zt dz C : ℝ, 0 < k →
      bouligand2009 kzMax k beta zt dz C =
        C - 2 * k * zt - k * dz - beta * Real.log k +
          Real.log (∫ kz in (0 : ℝ)..kzMax,
            (Real.cosh (k * dz) - Real.cos (kz * dz)) *
              (1 + (kz / k) ^ 2) ^ (-1 - beta / 2)) := by
  intro kzMax k beta zt dz C hk
  unfold bouligand2009 bouligandIntegrand
  rw [abs_of_pos hk]

/-- Closed witness for C4 at `kzMax = 1`, `k = 1`, `beta = 3`, `z_t = 2`,
`dz = 18`, `C = 0`. -/
theorem bouligand2009_spec_witness :
    0 < (1 : ℝ) ∧
      bouligand2009 1 1 3 2 18 0 =
        0 - 2 * 1 * 2 - 1 * 18 - 3 * Real.log 1 +
          Real.log (∫ kz in (0 : ℝ)..1,
            (Real.cosh (1 * 18) - Real.cos (kz * 18)) *
              (1 + (kz / 1) ^ 2) ^ (-1 - 3 / 2 : ℝ)) :=
  ⟨by norm_num, bouligand2009_spec 1 1 3 2 18 0 (by norm_num)⟩

/-- C6: each of the three forward models is a pure function of its
arguments — here each is literally the composition of stateless
validation, which passes its input through unchanged, with a pointwise
closed-form map — and returns a `DomainError` exactly when the wavenumber
input contains a nonpositive entry. -/
theorem forwardModels_domainError_iff :
    ∀ (kzMax beta zt dz C B D zo : ℝ) (ks : List ℝ),
      (bouligandModel kzMax beta zt dz C ks = Except.error Err.DomainError ↔
        ∃ k ∈ ks, k ≤ 0) ∧
      (li2013zt B zt ks = Except.error Err.DomainError ↔ ∃ k ∈ ks, k ≤ 0) ∧
      (li2013zo D zo ks = Except.error Err.DomainError ↔ ∃ k ∈ ks, k ≤ 0) ∧
      (∀ l, checkWavenumbers ks = Except.ok l → l = ks) := by
  intro kzMax beta zt dz C B D zo ks
  have herr : ∀ (f : List ℝ → List ℝ),
      (checkWavenumbers ks).map f = Except.error Err.DomainError ↔
        ∃ k ∈ ks, k ≤ 0 := by
    intro f
    rw [← checkWavenumbers_error_iff ks]
    cases h : checkWavenumbers ks with
    | ok l => simp [Except.map]
    | error e => simp [Except.map]
  exact ⟨herr _, herr _, herr _, fun l => checkWavenumbers_ok ks l⟩

/-- Modelled from the spec: the radial average of the FFT power samples
falling in one wavenumber bin. -/
noncomputable def radialAverage (ps : List ℝ) : ℝ := ps.sum / ps.length

/-- Modelled from the spec: the per-bin output of `radial_spectrum` (code
absent from the repository): the natural log of the radially averaged
squared FFT magnitude of the bin, i.e. log-power. -/
noncomputable def radialSpectrumBin (ps : List ℝ) : ℝ :=
  Real.log (radialAverage ps)

/-- Modelled from the spec and the Tanaka notebook caller: the per-bin
output `Phi` of `radial_spectrum_log` (code absent from the repository):
the natural log of the square root of the radially averaged FFT power,
i.e. log-amplitude rather than log-power. -/
noncomputable def radialSpectrumLogBin (ps : List ℝ) : ℝ :=
  Real.log (Real.sqrt (radialAverage ps))

/-- C10: the Tanaka-path spectrum output `Phi` equals the natural log of
the square root of the radially averaged FFT power — half the log-power
returned by `radial_spectrum` — so `log(exp(Phi)/k)` yields the quantity
`ln(sqrt(power)/k)` fit in the Tanaka z_o regime. -/
theorem radialSpectrumLog_half_power :
    ∀ (ps : List ℝ) (k : ℝ), 0 < radialAverage ps →
      radialSpectrumLogBin ps = radialSpectrumBin ps / 2 ∧
      Real.log (Real.exp (radialSpectrumLogBin ps) / k) =
        Real.log (Real.sqrt (radialAverage ps) / k) := by
  intro ps k hp
  constructor
  · unfold radialSpectrumLogBin radialSpectrumBin
    exact Real.log_sqrt hp.le
  · unfold radialSpectrumLogBin
    rw [Real.exp_log (Real.sqrt_pos.2 hp)]

/-- Closed witness for C10 on a bin holding the single power sample `1`
and wavenumber `1`. -/
theorem radialSpectrumLog_half_power_witness :
    0 < radialAverage [1] ∧
      (radialSpectrumLogBin [1] = radialSpectrumBin [1] / 2 ∧
        Real.log (Real.exp (radialSpectrumLogBin [1]) / 1) =
          Real.log (Real.sqrt (radialAverage [1]) / 1)) :=
  ⟨by norm_num [radialAverage], radialSpectrumLog_half_power [1] 1
    (by norm_num [radialAverage])⟩

/-- Modelled from the spec: the per-centroid loop of the Spatial Driver
(code absent from the repository): at each centroid of the CentroidList
the driver runs Windowing, the Spectral Estimator and the Parameter
Estimator; a `FitFailure` at a single centroid is caught locally and
recorded as a missing cell (`none`, the NaN cell of the ResultField), and
the sweep continues over the remaining centroids. -/
def sweep (fit : ℚ × ℚ → Except Err ℝ) (cs : List (ℚ × ℚ)) :
    List (Option ℝ) :=
  cs.map fun c =>
    match fit c with
    | Except.ok v => some v
    | Except.error _ => none

/-- C7: during a spatial sweep a `FitFailure` at any single centroid is
recorded as a missing (`none`) cell of the ResultField while a successful
fit is recorded as its value, and the sweep completes over all centroids —
the ResultField has one cell per centroid — instead of aborting. -/
theorem sweep_catches_fitFailure :
    ∀ (fit : ℚ × ℚ → Except Err ℝ) (cs : List (ℚ × ℚ)),
      (sweep fit cs).length = cs.length ∧
      (∀ (i : ℕ) (c : ℚ × ℚ), cs[i]? = some c →
        (fit c = Except.error Err.FitFailure →
          (sweep fit cs)[i]? = some none) ∧
        (∀ v, fit c = Except.ok v → (sweep fit cs)[i]? = some (some v))) := by
  intro fit cs
  refine ⟨List.length_map _ _, ?_⟩
  intro i c hc
  have hmap : (sweep fit cs)[i]? =
      (cs[i]?).map fun c =>
        match fit c with
        | Except.ok v => some v
        | Except.error _ => none := by
    simp [sweep]
  constructor
  · intro hfail
    rw [hmap, hc]
    simp [hfail]
  · intro v hok
    rw [hmap, hc]
    simp [hok]

/-- Modelled from the spec: a Gaussian Prior attached to one
ModelParameters component: mean and standard deviation. -/
structure Prior where
  mean : ℝ
  std : ℝ

/-- Modelled from the spec: the state of a CurieOptimise object (code
absent from the repository): the Grid it was constructed with, plus the
Priors attached with `add_prior`, indexed by parameter position. -/
structure CurieOptimise where
  grid : Grid
  priors : List (ℕ × Prior)

/-- Modelled from the spec: `add_prior` attaches a Prior to one parameter
of the object, leaving the Grid untouched. -/
def add_prior (s : CurieOptimise) (i : ℕ) (p : Prior) : CurieOptimise :=
  { s with priors := (i, p) :: s.priors }

/-- Modelled from the spec: `reset_priors` clears any previously attached
Prior so that repeated spatial runs are independent by default. -/
def reset_priors (s : CurieOptimise) : CurieOptimise :=
  { s with priors := [] }

/-- Modelled from the spec: the objective the Parameter Estimator
minimises: the least-squares misfit plus, per attached prior, the
quadratic penalty `((param - prior_mean)/prior_std)^2` — the only channel
through which priors influence a fit or a spatial run. -/
noncomputable def objective (s : CurieOptimise) (misfit : ℝ) (θ : ℕ → ℝ) :
    ℝ :=
  misfit + (s.priors.map fun ip => ((θ ip.1 - ip.2.mean) / ip.2.std) ^ 2).sum

/-- C8: after `reset_priors` no previously attached Prior influences any
subsequent fit — the fit objective reduces to the pure misfit, and resets
of states with different attached priors agree — while the Grid data of
the object is left unchanged, so repeated spatial runs are independent by
default. -/
theorem reset_priors_frame :
    ∀ (s : CurieOptimise) (misfit : ℝ) (θ : ℕ → ℝ) (i : ℕ) (p : Prior),
      (reset_priors s).priors = [] ∧
      (reset_priors s).grid = s.grid ∧
      objective (reset_priors s) misfit θ = misfit ∧
      objective (reset_priors (add_prior s i p)) misfit θ =
        objective (reset_priors s) misfit θ := by
  intro s misfit θ i p
  refine ⟨rfl, rfl, ?_, rfl⟩
  unfold objective reset_priors
  simp

/-- Modelled from the spec: a seeded pseudo-random source (the library
draws from a seeded random generator whose code is absent from the
repository).  The injectable seed is a natural number; each draw advances
the state by a 64-bit linear congruential step. -/
def lcg (s : ℕ) : ℕ :=
  (6364136223846793005 * s + 1442695040888963407) % 2 ^ 64

/-- Modelled from the spec: a uniform draw in `[0, 1)` read off the
current generator state. -/
def uniformDraw (s : ℕ) : ℚ := ((s % 2 ^ 32 : ℕ) : ℚ) / (2 ^ 32 : ℚ)

/-- Modelled from the spec: one standardized proposal jump per parameter,
scaled by the per-parameter step scale supplied by the caller, consuming
one generator advance per parameter. -/
def drawJumps : List ℚ → ℕ → List ℚ × ℕ
  | [], s => ([], s)
  | sc :: rest, s =>
    let s1 := lcg s
    let (js, s2) := drawJumps rest s1
    ((sc * (uniformDraw s1 - 1 / 2)) :: js, s2)

/-- Modelled from the spec: one Metropolis-Hastings step (code absent from
the repository): a candidate is proposed by adding independent scaled
jumps to the current state and accepted with probability
`min(1, exp(Δ log posterior))` against a uniform acceptance draw. -/
noncomputable def mhStep (logPost : List ℚ → ℝ) (scales θ : List ℚ)
    (s : ℕ) : List ℚ × ℕ :=
  let (js, s1) := drawJumps scales s
  let cand := List.zipWith (· + ·) θ js
  let s2 := lcg s1
  if ((uniformDraw s2 : ℚ) : ℝ) ≤ min 1 (Real.exp (logPost cand - logPost θ))
    then (cand, s2) else (θ, s2)

/-- Modelled from the spec: the Markov chain of the sampler, threading the
generator state through successive steps. -/
noncomputable def mhChain (logPost : List ℚ → ℝ) (scales : List ℚ) :
    ℕ → List ℚ → ℕ → List (List ℚ)
  | 0, _, _ => []
  | n + 1, θ, s =>
    let r := mhStep logPost scales θ s
    r.1 :: mhChain logPost scales n r.1 r.2

/-- Modelled from the spec: `metropolis_hastings` (code absent from the
repository): runs the chain from the supplied starting parameters and
injected seed and discards the first `burnin` samples, returning the next
`nsim` samples. -/
noncomputable def metropolis_hastings (logPost : List ℚ → ℝ)
    (nsim burnin : ℕ) (scales start : List ℚ) (seed : ℕ) :
    List (List ℚ) :=
  (mhChain logPost scales (burnin + nsim) start seed).drop burnin

/-- Modelled from the spec: `sensitivity` (code absent from the
repository): for each of `nsim` repetitions, draw a perturbation from the
seeded source and re-run the MAP fit — abstracted as `refit` — on the
perturbed inputs, collecting the resulting parameters. -/
def sensitivity (refit : ℚ → List ℚ) : ℕ → ℕ → List (List ℚ)
  | 0, _ => []
  | n + 1, s =>
    let s1 := lcg s
    refit (uniformDraw s1 - 1 / 2) :: sensitivity refit n s1

/-- C9: the Uncertainty Sampler is deterministic given a seed: two runs of
`metropolis_hastings` (or `sensitivity`) with identical inputs — step
scales, starting parameters, sample and burn-in counts — and the same
injected seed produce identical output sample sequences. -/
theorem sampler_deterministic_of_seed :
    ∀ (logPost : List ℚ → ℝ) (refit : ℚ → List ℚ) (nsim burnin : ℕ)
      (scales start : List ℚ) (seed seed2 : ℕ), seed = seed2 →
      metropolis_hastings logPost nsim burnin scales start seed =
        metropolis_hastings logPost nsim burnin scales start seed2 ∧
      sensitivity refit nsim seed = sensitivity refit nsim seed2 := by
  intro logPost refit nsim burnin scales start seed seed2 h
  subst h
  exact ⟨rfl, rfl⟩

/-- Closed witness for C9 at a concrete posterior, refit and seed. -/
theorem sampler_deterministic_of_seed_witness :
    (42 : ℕ) = 42 ∧
      (metropolis_hastings (fun _ => 0) 3 1 [1] [0] 42 =
          metropolis_hastings (fun _ => 0) 3 1 [1] [0] 42 ∧
        sensitivity (fun _ => [0]) 3 42 = sensitivity (fun _ => [0]) 3 42) :=
  ⟨rfl, sampler_deterministic_of_seed (fun _ => 0) (fun _ => [0])
    3 1 [1] [0] 42 42 rfl⟩

end PyCurious
